import Mathlib

/-!
# Verification of the spb-land-finder pipeline

Shallow embedding of the urban-plot-analysis pipeline
(`src/spb-land-finder/pipeline.py`, `src/tools/urban-plot-analysis/*.py`).

Modelling conventions:
* Python dict values that flow through the pipeline (JSON values from the
  registry and from the vision model) are modelled by `JVal`
  (null / bool / number / string / list / dict); numbers are rationals,
  standing for Python ints and floats.
* Python dicts are association lists (`Dict`); `pyGet`/`pyGetD` model
  `d.get(k)` / `d.get(k, default)`.  Python truthiness of a value is
  `truthy`; `x >= y` between a JSON value and a number is `pyGE`, raising
  `TypeError` (modelled as `Except.error`) on null/string operands,
  exactly as Python does.
* The three external gateways (registry, imagery, vision) are an `Env` of
  functions returning `Except String _`: `.error msg` models the call
  raising an exception with message `msg`, `.ok` a normal return.
* `time.sleep`, logging, the timestamp and the satellite-image file path
  (pure side information in the success dict) are elided; saving results
  is modelled as the `save_result` effect of the environment.
* The per-parcel analyzer additionally returns the trace of gateway calls
  it performed (`List Call`), so that "no imagery / classification call is
  made" is a provable statement.
-/

/-- A Python/JSON value as it occurs in the dictionaries the pipeline
manipulates: `None`, booleans, numbers (ints and floats, modelled as `ℚ`),
strings, lists and nested dicts. -/
inductive JVal where
  | null : JVal
  | bool : Bool → JVal
  | num : ℚ → JVal
  | str : String → JVal
  | arr : List JVal → JVal
  | obj : List (String × JVal) → JVal
deriving Repr

mutual

/-- Decidable equality of values (written by hand: `deriving` does not
handle the nested inductive). -/
def decEqJVal : (a b : JVal) → Decidable (a = b)
  | .null, .null => isTrue rfl
  | .null, .bool _ => isFalse (by simp)
  | .null, .num _ => isFalse (by simp)
  | .null, .str _ => isFalse (by simp)
  | .null, .arr _ => isFalse (by simp)
  | .null, .obj _ => isFalse (by simp)
  | .bool _, .null => isFalse (by simp)
  | .bool a, .bool b =>
    match decEq a b with
    | isTrue h => isTrue (by rw [h])
    | isFalse h => isFalse (by simp [h])
  | .bool _, .num _ => isFalse (by simp)
  | .bool _, .str _ => isFalse (by simp)
  | .bool _, .arr _ => isFalse (by simp)
  | .bool _, .obj _ => isFalse (by simp)
  | .num _, .null => isFalse (by simp)
  | .num _, .bool _ => isFalse (by simp)
  | .num a, .num b =>
    match decEq a b with
    | isTrue h => isTrue (by rw [h])
    | isFalse h => isFalse (by simp [h])
  | .num _, .str _ => isFalse (by simp)
  | .num _, .arr _ => isFalse (by simp)
  | .num _, .obj _ => isFalse (by simp)
  | .str _, .null => isFalse (by simp)
  | .str _, .bool _ => isFalse (by simp)
  | .str _, .num _ => isFalse (by simp)
  | .str a, .str b =>
    match decEq a b with
    | isTrue h => isTrue (by rw [h])
    | isFalse h => isFalse (by simp [h])
  | .str _, .arr _ => isFalse (by simp)
  | .str _, .obj _ => isFalse (by simp)
  | .arr _, .null => isFalse (by simp)
  | .arr _, .bool _ => isFalse (by simp)
  | .arr _, .num _ => isFalse (by simp)
  | .arr _, .str _ => isFalse (by simp)
  | .arr a, .arr b =>
    match decEqJValList a b with
    | isTrue h => isTrue (by rw [h])
    | isFalse h => isFalse (by simp [h])
  | .arr _, .obj _ => isFalse (by simp)
  | .obj _, .null => isFalse (by simp)
  | .obj _, .bool _ => isFalse (by simp)
  | .obj _, .num _ => isFalse (by simp)
  | .obj _, .str _ => isFalse (by simp)
  | .obj _, .arr _ => isFalse (by simp)
  | .obj a, .obj b =>
    match decEqJValEntries a b with
    | isTrue h => isTrue (by rw [h])
    | isFalse h => isFalse (by simp [h])

/-- Decidable equality of value lists. -/
def decEqJValList : (a b : List JVal) → Decidable (a = b)
  | [], [] => isTrue rfl
  | [], _ :: _ => isFalse (by simp)
  | _ :: _, [] => isFalse (by simp)
  | a :: as, b :: bs =>
    match decEqJVal a b, decEqJValList as bs with
    | isTrue h1, isTrue h2 => isTrue (by rw [h1, h2])
    | isFalse h1, _ => isFalse (by simp [h1])
    | _, isFalse h2 => isFalse (by simp [h2])

/-- Decidable equality of key-value entry lists. -/
def decEqJValEntries : (a b : List (String × JVal)) → Decidable (a = b)
  | [], [] => isTrue rfl
  | [], _ :: _ => isFalse (by simp)
  | _ :: _, [] => isFalse (by simp)
  | (k1, v1) :: as, (k2, v2) :: bs =>
    match String.decEq k1 k2, decEqJVal v1 v2, decEqJValEntries as bs with
    | isTrue h1, isTrue h2, isTrue h3 => isTrue (by rw [h1, h2, h3])
    | isFalse h1, _, _ => isFalse (by simp [h1])
    | _, isFalse h2, _ => isFalse (by simp [h2])
    | _, _, isFalse h3 => isFalse (by simp [h3])

end

instance : DecidableEq JVal := decEqJVal

/-- A Python dict with string keys, as an association list. -/
abbrev Dict := List (String × JVal)

/-- `d.get(k)`: first binding of `k` in `d` (the embedded dicts are built
without duplicate keys). -/
def pyGet (d : Dict) (k : String) : Option JVal :=
  (d.find? (fun p => p.1 == k)).map (fun p => p.2)

/-- `d.get(k, default)`. -/
def pyGetD (d : Dict) (k : String) (v : JVal) : JVal :=
  (pyGet d k).getD v

/-- Python truthiness of a value: `None`, `False`, `0` and `""` are falsy,
everything else is truthy. -/
def truthy : JVal → Bool
  | .null => false
  | .bool b => b
  | .num q => q != 0
  | .str s => s != ""
  | .arr l => !l.isEmpty
  | .obj d => !d.isEmpty

/-- Python `v >= y` for a JSON value `v` and a number `y`: numbers compare
numerically, booleans coerce to 0/1, while `None >= y` and `s >= y` raise
`TypeError` (modelled as `Except.error`). -/
def pyGE (v : JVal) (y : ℚ) : Except String Bool :=
  match v with
  | .num a => .ok (decide (y ≤ a))
  | .bool b => .ok (decide (y ≤ (if b then (1 : ℚ) else 0)))
  | .null => .error "TypeError: unsupported comparison for NoneType"
  | .str _ => .error "TypeError: unsupported comparison for str"
  | .arr _ => .error "TypeError: unsupported comparison for list"
  | .obj _ => .error "TypeError: unsupported comparison for dict"

instance {ε α : Type} [DecidableEq ε] [DecidableEq α] : DecidableEq (Except ε α) := fun a b =>
  match a, b with
  | .ok x, .ok y => if h : x = y then .isTrue (by rw [h]) else .isFalse (by simp [h])
  | .error x, .error y => if h : x = y then .isTrue (by rw [h]) else .isFalse (by simp [h])
  | .ok _, .error _ => .isFalse (by simp)
  | .error _, .ok _ => .isFalse (by simp)

/-! ## Registry records (`rosreestr_client.py`) -/

/-- The `center` entry of a raw registry record: either a dict whose
`coordinates` entry may be missing (`none`) or a `[lon, lat]` sequence, or
directly such a sequence (`isinstance(center, dict)` dispatch in
`get_plot_coordinates`). -/
inductive CenterVal where
  | dict : Option (List ℚ) → CenterVal
  | raw : List ℚ → CenterVal
deriving DecidableEq, Repr

/-- The `extent` entry of a raw registry record.  The four bounds are the
numeric `xmin`/`ymin`/`xmax`/`ymax` entries; records whose extent lacks one
of them, or holds a non-numeric bound, raise inside `get_plot_coordinates`
and are folded into the absent-extent case (the caught-exception path
returns `None` either way). -/
structure Extent where
  xmin : ℚ
  ymin : ℚ
  xmax : ℚ
  ymax : ℚ
deriving DecidableEq, Repr

/-- A raw registry record as consumed by the pipeline: its `attrs` dict
(missing defaults to `{}`), and the optional `center` / `extent`
geometry.  An empty record (`{}`, falsy in Python) is folded into the
`None` result of the lookup, as the clients return `None` for it. -/
structure PlotData where
  attrs : Option Dict := none
  center : Option CenterVal := none
  extent : Option Extent := none
deriving DecidableEq, Repr

/-- `RosreestrClient.get_plot_details`: extract the details dict from a raw
record, with the source's sentinel defaults for missing attributes. -/
def get_plot_details (plot_data : PlotData) : Dict :=
  let attrs := plot_data.attrs.getD []
  [("cadastral_number", pyGetD attrs "cn" (.str "N/A")),
   ("area", pyGetD attrs "area_value" (.num 0)),
   ("area_unit", pyGetD attrs "area_unit" (.str "м²")),
   ("category", pyGetD attrs "category_type" (.str "N/A")),
   ("permitted_use", pyGetD attrs "util_by_doc" (.str "N/A")),
   ("address", pyGetD attrs "address" (.str "N/A")),
   ("cost", pyGetD attrs "cad_cost" (.num 0))]

/-- `RosreestrClient.get_plot_coordinates`: primary representation is the
`center` entry (unpacked as `[lon, lat]`; any unpacking failure is caught
and yields `None` without falling back), else the midpoint of the
`extent`; `None` when neither is usable. -/
def get_plot_coordinates (plot_data : PlotData) : Option (ℚ × ℚ) :=
  match plot_data.center with
  | some c =>
    let coords : Option (List ℚ) :=
      match c with
      | .dict co => co
      | .raw l => some l
    match coords with
    | some [lon, lat] => some (lat, lon)
    | _ => none
  | none =>
    match plot_data.extent with
    | some e => some ((e.ymin + e.ymax) / 2, (e.xmin + e.xmax) / 2)
    | none => none

/-! ## Vision classifier (`claude_vision_client.py`) -/

/-- Image payloads (`bytes`); only emptiness is observable to control
flow, so bytes are a list of byte values. -/
abbrev Bytes := List Nat

/-- `Char.ofNat 123`, the opening curly brace. -/
def lbrace : Char := Char.ofNat 123

/-- `Char.ofNat 125`, the closing curly brace. -/
def rbrace : Char := Char.ofNat 125

/-- A character matched by the regex class `[^{}]`. -/
def nonBrace (c : Char) : Bool := c != lbrace && c != rbrace

/-- Inner loop of the regex `\x7b[^{}]*(?:\x7b[^{}]*\x7d[^{}]*)*\x7d` of
`_parse_response`, entered after the opening brace and the first `[^{}]*`
run: repeatedly match one nested `\x7b[^{}]*\x7d[^{}]*` group, then the
final closing brace.  Because `[^{}]*` always stops at a brace, the
regex's greedy backtracking search is deterministic, and this function
computes exactly its match.  Returns the consumed characters and the rest;
`fuel` bounds recursion (callers pass the input length, which suffices as
each group consumes at least two characters). -/
def matchGroups : Nat → List Char → Option (List Char × List Char)
  | _, [] => none
  | fuel, c :: rest =>
    if c = rbrace then some ([c], rest)
    else if c = lbrace then
      match fuel with
      | 0 => none
      | fuel' + 1 =>
        let mid := rest.takeWhile nonBrace
        let rest1 := rest.dropWhile nonBrace
        match rest1 with
        | c2 :: rest2 =>
          if c2 = rbrace then
            let tail := rest2.takeWhile nonBrace
            let rest3 := rest2.dropWhile nonBrace
            match matchGroups fuel' rest3 with
            | some (consumed, rest4) =>
              some (c :: (mid ++ c2 :: (tail ++ consumed)), rest4)
            | none => none
          else none
        | [] => none
    else none

/-- Try to match the whole regex of `_parse_response` at the head of `s`:
an opening brace, a run of `[^{}]*`, then `matchGroups`. -/
def matchBlock (s : List Char) : Option (List Char) :=
  match s with
  | c :: rest =>
    if c = lbrace then
      let pre := rest.takeWhile nonBrace
      let rest1 := rest.dropWhile nonBrace
      match matchGroups (rest1.length + 1) rest1 with
      | some (consumed, _) => some (c :: (pre ++ consumed))
      | none => none
    else none
  | [] => none

/-- `re.search` of the block regex: the match at the leftmost position
where one exists. -/
def findBlockIn : List Char → Option (List Char)
  | [] => none
  | c :: rest =>
    match matchBlock (c :: rest) with
    | some m => some m
    | none => findBlockIn rest

/-- The JSON block `_parse_response` extracts from the model's response
text, when any. -/
def findJsonBlock (text : String) : Option String :=
  (findBlockIn text.toList).map (fun l => String.mk l)

/-- Whitespace skipping of the JSON grammar. -/
def skipWs : List Char → List Char
  | c :: rest =>
    if c = ' ' ∨ c = '\n' ∨ c = '\t' ∨ c = '\r' then skipWs rest else c :: rest
  | [] => []

/-- Hexadecimal digit value. -/
def hexVal (c : Char) : Option Nat :=
  if '0' ≤ c ∧ c ≤ '9' then some (c.toNat - 48)
  else if 'a' ≤ c ∧ c ≤ 'f' then some (c.toNat - 87)
  else if 'A' ≤ c ∧ c ≤ 'F' then some (c.toNat - 55)
  else none

/-- The single-character JSON escape sequences. -/
def unescapeChar (c : Char) : Option Char :=
  if c = '"' then some '"'
  else if c = '\\' then some '\\'
  else if c = '/' then some '/'
  else if c = 'b' then some (Char.ofNat 8)
  else if c = 'f' then some (Char.ofNat 12)
  else if c = 'n' then some '\n'
  else if c = 'r' then some '\r'
  else if c = 't' then some '\t'
  else none

/-- Characters of a JSON string literal up to its closing quote, decoding
the escape sequences; unescaped control characters are rejected, as
`json.loads` is strict by default.  `\uXXXX` escapes naming surrogate
halves (paired or not) are outside the modelled input space. -/
def takeStrChars : List Char → Option (List Char × List Char)
  | [] => none
  | c :: rest =>
    if c = '"' then some ([], rest)
    else if c = '\\' then
      match rest with
      | [] => none
      | e :: rest2 =>
        if e = 'u' then
          match rest2 with
          | h1 :: h2 :: h3 :: h4 :: rest3 =>
            match hexVal h1, hexVal h2, hexVal h3, hexVal h4 with
            | some a, some b, some c3, some d =>
              let code := ((a * 16 + b) * 16 + c3) * 16 + d
              if 0xD800 ≤ code ∧ code ≤ 0xDFFF then none
              else (takeStrChars rest3).map (fun p => (Char.ofNat code :: p.1, p.2))
            | _, _, _, _ => none
          | _ => none
        else
          match unescapeChar e with
          | some u => (takeStrChars rest2).map (fun p => (u :: p.1, p.2))
          | none => none
    else if c.toNat < 32 then none
    else (takeStrChars rest).map (fun p => (c :: p.1, p.2))

/-- A decimal digit. -/
def isDigit (c : Char) : Bool := '0' ≤ c && c ≤ '9'

/-- The value of a run of decimal digits. -/
def digitsToNat (l : List Char) : Nat :=
  l.foldl (fun n c => 10 * n + (c.toNat - 48)) 0

/-- The JSON number grammar
`-?(0|[1-9][0-9]*)(\.[0-9]+)?([eE][+-]?[0-9]+)?`, evaluated exactly as a
rational (Python turns non-integer literals into binary doubles; only
parse success, and the values of integer literals, are observable to the
claims).  `NaN`/`Infinity`, Python's non-standard extension, have no
rational value and are outside the modelled input space. -/
def parseNumber (s : List Char) : Option (ℚ × List Char) :=
  let (neg, s1) :=
    match s with
    | c :: rest => if c = '-' then (true, rest) else (false, s)
    | [] => (false, s)
  let ids := s1.takeWhile isDigit
  let s2 := s1.dropWhile isDigit
  if ids.isEmpty then none
  else if ids.head? = some '0' ∧ ids.length ≠ 1 then none
  else
    let fracStep : Option (ℚ × List Char) :=
      match s2 with
      | c :: s3 =>
        if c = '.' then
          let fds := s3.takeWhile isDigit
          let s4 := s3.dropWhile isDigit
          if fds.isEmpty then none
          else some ((digitsToNat ids : ℚ)
            + (digitsToNat fds : ℚ) / ((10 : ℚ) ^ fds.length), s4)
        else some ((digitsToNat ids : ℚ), s2)
      | [] => some ((digitsToNat ids : ℚ), s2)
    match fracStep with
    | none => none
    | some (mant, s4) =>
      match s4 with
      | c :: s5 =>
        if c = 'e' ∨ c = 'E' then
          let (eneg, s6) :=
            match s5 with
            | c2 :: rest =>
              if c2 = '-' then (true, rest)
              else if c2 = '+' then (false, rest)
              else (false, s5)
            | [] => (false, s5)
          let eds := s6.takeWhile isDigit
          let s7 := s6.dropWhile isDigit
          if eds.isEmpty then none
          else
            let scaled :=
              if eneg then mant / ((10 : ℚ) ^ digitsToNat eds)
              else mant * ((10 : ℚ) ^ digitsToNat eds)
            some (if neg then -scaled else scaled, s7)
        else some (if neg then -mant else mant, s4)
      | [] => some (if neg then -mant else mant, s4)

/-- Python dict assignment `d[k] = v`: replace the value at the first
occurrence of `k` (keeping its position) or append a new binding — the
semantics `json.loads` applies to duplicate object keys (last value
wins, first position kept). -/
def dictInsert (d : Dict) (k : String) (v : JVal) : Dict :=
  match d with
  | [] => [(k, v)]
  | (k0, v0) :: rest =>
    if k0 = k then (k0, v) :: rest
    else (k0, v0) :: dictInsert rest k v

mutual

/-- One JSON value: a string, `true`/`false`/`null`, a number, an array,
or a nested object (with dict-assignment duplicate-key semantics).
`fuel` bounds the recursion; callers pass the input length, which
suffices because well-formed nesting consumes at least two characters
per level (an insufficient-fuel failure coincides with a parse failure
otherwise). -/
def parseValue : Nat → List Char → Option (JVal × List Char)
  | 0, _ => none
  | fuel + 1, s =>
    match s with
    | [] => none
    | c :: rest =>
      if c = '"' then
        match takeStrChars rest with
        | some (cs, r) => some (.str (String.mk cs), r)
        | none => none
      else if c = 't' then
        match rest with
        | 'r' :: 'u' :: 'e' :: r => some (.bool true, r)
        | _ => none
      else if c = 'f' then
        match rest with
        | 'a' :: 'l' :: 's' :: 'e' :: r => some (.bool false, r)
        | _ => none
      else if c = 'n' then
        match rest with
        | 'u' :: 'l' :: 'l' :: r => some (.null, r)
        | _ => none
      else if c = '[' then
        match skipWs rest with
        | c2 :: rest2 =>
          if c2 = ']' then some (.arr [], rest2)
          else
            match parseArrayItems fuel (c2 :: rest2) with
            | some (items, r) => some (.arr items, r)
            | none => none
        | [] => none
      else if c = lbrace then
        match skipWs rest with
        | c2 :: rest2 =>
          if c2 = rbrace then some (.obj [], rest2)
          else
            match parseMembersRaw fuel (c2 :: rest2) with
            | some (raw, r) =>
              some (.obj (raw.foldl (fun d p => dictInsert d p.1 p.2) []), r)
            | none => none
        | [] => none
      else
        match parseNumber s with
        | some (q, r) => some (.num q, r)
        | none => none

/-- The comma-separated items of a JSON array, up to and including the
closing bracket. -/
def parseArrayItems : Nat → List Char → Option (List JVal × List Char)
  | 0, _ => none
  | fuel + 1, s =>
    match parseValue fuel (skipWs s) with
    | some (v, r1) =>
      match skipWs r1 with
      | c :: r2 =>
        if c = ',' then
          match parseArrayItems fuel r2 with
          | some (items, r3) => some (v :: items, r3)
          | none => none
        else if c = ']' then some ([v], r2)
        else none
      | [] => none
    | none => none

/-- The `"key": value` members of a JSON object, up to and including the
closing brace, in source order (duplicates included; the object
constructor applies the dict-assignment semantics). -/
def parseMembersRaw : Nat → List Char → Option (List (String × JVal) × List Char)
  | 0, _ => none
  | fuel + 1, s =>
    match skipWs s with
    | c :: rest =>
      if c = '"' then
        match takeStrChars rest with
        | some (key, r1) =>
          match skipWs r1 with
          | ':' :: r2 =>
            match parseValue fuel (skipWs r2) with
            | some (v, r3) =>
              match skipWs r3 with
              | c2 :: r4 =>
                if c2 = ',' then
                  match parseMembersRaw fuel r4 with
                  | some (raw, r5) => some ((String.mk key, v) :: raw, r5)
                  | none => none
                else if c2 = rbrace then some ([(String.mk key, v)], r4)
                else none
              | [] => none
            | none => none
          | _ => none
        | none => none
      else none
    | [] => none

end

/-- `json.loads` on the extracted block: the JSON grammar — objects,
arrays, strings with escapes, numbers (including decimal floats,
modelled exactly as rationals), `true`/`false`/`null` — with Python's
last-wins duplicate-key handling, requiring the whole string to be
consumed.  `none` models `json.loads` raising.  The input always starts
with a brace (it is a match of the block regex), so the top level is an
object. -/
def jsonLoads (s : String) : Option Dict :=
  match parseValue (s.toList.length + 1) (skipWs s.toList) with
  | some (.obj d, r) => if skipWs r = [] then some d else none
  | _ => none

/-- `str.lower` restricted to the alphabets the keyword heuristics use:
ASCII letters and the Russian alphabet. -/
def ruLowerChar (c : Char) : Char :=
  if 'A' ≤ c ∧ c ≤ 'Z' then Char.ofNat (c.toNat + 32)
  else if 'А' ≤ c ∧ c ≤ 'Я' then Char.ofNat (c.toNat + 32)
  else if c = 'Ё' then 'ё'
  else c

/-- `response_text.lower()`. -/
def ruLower (s : String) : String := String.mk (s.toList.map ruLowerChar)

/-- Does `pat` occur at the head of `s`? -/
def startsWithL : List Char → List Char → Bool
  | [], _ => true
  | _ :: _, [] => false
  | a :: as, b :: bs => a == b && startsWithL as bs

/-- Does `pat` occur anywhere in `s`? -/
def containsSubAux (pat : List Char) : List Char → Bool
  | [] => pat.isEmpty
  | c :: rest => startsWithL pat (c :: rest) || containsSubAux pat rest

/-- Python `sub in s`. -/
def containsSub (s sub : String) : Bool :=
  containsSubAux sub.toList s.toList

/-- The keyword-heuristic fallback dict of `_parse_response`, used when no
JSON block is found in the response text. -/
def textFallback (response_text : String) : Dict :=
  let lower := ruLower response_text
  [("is_occupied", .bool (containsSub lower "да" && containsSub lower "застройка")),
   ("confidence", .str "средний"),
   ("description", .str response_text),
   ("buildings_detected",
      .bool (containsSub lower "здани" || containsSub lower "строени")),
   ("vegetation_level", .str "unknown"),
   ("suitable_for_development",
      .bool (containsSub lower "свобод" || containsSub lower "пригод")),
   ("recommendations", .str "Требуется детальная проверка на месте")]

/-- `ClaudeVisionClient._parse_response`: extract a JSON block and return
its parse verbatim; on `json.loads` failure return the caught-exception
dict; with no JSON block, fall back to the keyword heuristics. -/
def parse_response (response_text : String) : Dict :=
  match findJsonBlock response_text with
  | some block =>
    match jsonLoads block with
    | some parsed => parsed
    | none =>
      [("raw_response", .str response_text),
       ("is_occupied", .null),
       ("confidence", .str "низкий")]
  | none => textFallback response_text

/-- Behaviour of the vision API call inside
`ClaudeVisionClient.analyze_plot_occupancy`: either the model call
returns and the first content item's text is `text`, or some step of the
`try` block raises with message `msg`. -/
inductive VisionOutcome where
  | response : String → VisionOutcome
  | raises : String → VisionOutcome
deriving DecidableEq, Repr

/-- `ClaudeVisionClient.analyze_plot_occupancy`: parse the model response;
any exception is caught and converted into the degraded judgement with
`is_occupied=None` and `confidence='низкий'` (the source's spelling of
"low") plus the error marker.  The image bytes and plot details only feed
the prompt, so the API behaviour is abstracted as a `VisionOutcome`. -/
def analyze_plot_occupancy (outcome : VisionOutcome) : Dict :=
  match outcome with
  | .response text => parse_response text
  | .raises msg =>
    [("error", .str msg), ("is_occupied", .null), ("confidence", .str "низкий")]



/-! ## Per-parcel analyzer (`pipeline.py`, `analyze_single_plot`) -/

/-- One gateway invocation performed by the analyzer, for call-count
reasoning. -/
inductive Call where
  | registry_by_cn : Call
  | registry_by_coords : Call
  | imagery : Call
  | vision : Call
  | save : Call
deriving DecidableEq, Repr

/-- The analyzer's result dict.  `status` is always present; the other
keys are present (`some`) exactly when the corresponding branch of the
source puts them into the dict.  The `timestamp` and `satellite_image`
entries of the success dict carry no claim-relevant content and are
elided. -/
structure AnalysisResult where
  status : String
  error : Option String := none
  plot_details : Option Dict := none
  coordinates : Option (ℚ × ℚ) := none
  analysis : Option Dict := none
  suitability_score : Option Int := none
deriving DecidableEq, Repr

/-- The three external gateways plus result persistence, as the analyzer
sees them.  `Except.error msg` models the call raising an exception with
message `msg`; the concrete clients catch their own network errors and
return `None` (`Except.ok none`), but the analyzer guards against raising
collaborators with its top-level handler, so the model allows both. -/
structure Env where
  get_plot_by_cadastral_number : String → Except String (Option PlotData)
  get_plot_by_coordinates : ℚ → ℚ → Except String (Option PlotData)
  get_satellite_image : ℚ → ℚ → Except String (Option Bytes)
  analyze_occupancy : Bytes → Dict → Except String Dict
  save_result : AnalysisResult → Except String Unit

/-- The result the top-level `except` clause builds from a raised
exception. -/
def mkError (msg : String) : AnalysisResult :=
  { status := "error", error := some msg }

/-- Python truthiness of the optional `cadastral_number` argument:
`None` and `''` are falsy. -/
def truthyOS : Option String → Bool
  | none => false
  | some s => s != ""

/-- Python truthiness of an optional float argument: `None` and `0.0` are
falsy. -/
def truthyOQ : Option ℚ → Bool
  | none => false
  | some q => q != 0

/-- Is the fetched image payload truthy (`if not image_data` guard)?
`None` and `b''` are falsy. -/
def bytesTruthy : Option Bytes → Bool
  | none => false
  | some b => !b.isEmpty

/-- Steps 2–4 of `analyze_single_plot` after coordinates are resolved:
fetch the satellite image (failure returns the error dict that still
carries `plot_details`), classify, assemble and save the success dict.
A raising gateway propagates to the top-level handler (`mkError`). -/
def fetch_and_classify (env : Env) (plot_details : Dict) (lat lon : ℚ)
    (trace : List Call) : AnalysisResult × List Call :=
  match env.get_satellite_image lat lon with
  | .error e => (mkError e, trace ++ [.imagery])
  | .ok image_data =>
    if bytesTruthy image_data then
      match env.analyze_occupancy (image_data.getD []) plot_details with
      | .error e => (mkError e, trace ++ [.imagery, .vision])
      | .ok analysis_result =>
        let result : AnalysisResult :=
          { status := "success"
            plot_details := some plot_details
            coordinates := some (lat, lon)
            analysis := some analysis_result }
        match env.save_result result with
        | .error e => (mkError e, trace ++ [.imagery, .vision, .save])
        | .ok _ => (result, trace ++ [.imagery, .vision, .save])
    else
      ({ status := "error"
         error := some "Failed to get satellite image"
         plot_details := some plot_details }, trace ++ [.imagery])

/-- Continuation of `analyze_single_plot` after the registry lookup:
`not_found` short-circuit, detail and coordinate extraction (error
short-circuit), then imagery and classification. -/
def after_lookup (env : Env) (plot_data : Option PlotData)
    (trace : List Call) : AnalysisResult × List Call :=
  match plot_data with
  | none =>
    ({ status := "not_found"
       error := some "Plot not found in cadastral registry" }, trace)
  | some pd =>
    let plot_details := get_plot_details pd
    match get_plot_coordinates pd with
    | none => (mkError "Could not extract coordinates", trace)
    | some (lat, lon) => fetch_and_classify env plot_details lat lon trace

/-- `UrbanPlotAnalysisPipeline.analyze_single_plot`: lookup-mode dispatch
on the truthiness of the arguments (`if cadastral_number: ... elif lat and
lon: ... else: raise ValueError`), then the staged analysis; every raised
exception is caught at the top level and converted to a `status='error'`
result carrying the message.  Also returns the trace of gateway calls. -/
def analyze_single_plot (env : Env) (cadastral_number : Option String)
    (lat lon : Option ℚ) : AnalysisResult × List Call :=
  if truthyOS cadastral_number then
    match env.get_plot_by_cadastral_number (cadastral_number.getD "") with
    | .error e => (mkError e, [.registry_by_cn])
    | .ok plot_data => after_lookup env plot_data [.registry_by_cn]
  else if truthyOQ lat && truthyOQ lon then
    match env.get_plot_by_coordinates (lat.getD 0) (lon.getD 0) with
    | .error e => (mkError e, [.registry_by_coords])
    | .ok plot_data => after_lookup env plot_data [.registry_by_coords]
  else
    (mkError "Either cadastral_number or (lat, lon) must be provided", [])

/-! ## Area scanner partition and suitability ranker (`pipeline.py`) -/

/-- The vacancy partition of `analyze_area` (lines 196–200): keep results
with `status == 'success'` whose `analysis.get('is_occupied', True)` is
falsy. -/
def vacant_filter (results : List AnalysisResult) : List AnalysisResult :=
  results.filter fun r =>
    r.status == "success" &&
      !(truthy (pyGetD (r.analysis.getD []) "is_occupied" (.bool true)))

/-- The `confidence_map.get(analysis.get('confidence', 'низкий'), 10)`
lookup of `_calculate_suitability_score`: 30/20/10 points for the
source's spellings of high/medium/low, 10 for anything else. -/
def confidence_map_get (v : JVal) : Int :=
  if v = .str "высокий" then 30
  else if v = .str "средний" then 20
  else if v = .str "низкий" then 10
  else 10

/-- The area contribution of `_calculate_suitability_score`: the
`if/elif` ladder over `area >= 5000 / 2000 / 1000`, whose comparisons can
raise `TypeError` on non-numeric area values. -/
def area_points (area : JVal) : Except String Int :=
  match pyGE area 5000 with
  | .error e => .error e
  | .ok true => .ok 30
  | .ok false =>
    match pyGE area 2000 with
    | .error e => .error e
    | .ok true => .ok 20
    | .ok false =>
      match pyGE area 1000 with
      | .error e => .error e
      | .ok true => .ok 10
      | .ok false => .ok 0

/-- Python `min(a, b)`: `a` when `a <= b`, else `b`.  The score summands
are all integer constants, so the Python float score is integer-valued
throughout; it is modelled on `Int` (and its `min` spelled out) so that
scores evaluate by kernel reduction. -/
def pymin (a b : Int) : Int := if b < a then b else a

/-- `UrbanPlotAnalysisPipeline._calculate_suitability_score`: confidence
points, area points, +20 for falsy `buildings_detected` (default `True`),
+20 for truthy `suitable_for_development` (default `False`), capped with
`min(score, 100)`. -/
def calculate_suitability_score (result : AnalysisResult) : Except String Int :=
  let analysis := result.analysis.getD []
  let plot_details := result.plot_details.getD []
  match area_points (pyGetD plot_details "area" (.num 0)) with
  | .error e => .error e
  | .ok ap =>
    let score : Int :=
      confidence_map_get (pyGetD analysis "confidence" (.str "низкий")) + ap
        + (if truthy (pyGetD analysis "buildings_detected" (.bool true))
           then 0 else 20)
        + (if truthy (pyGetD analysis "suitable_for_development" (.bool false))
           then 20 else 0)
    .ok (pymin score 100)

/-- The candidate-selection loop of `find_suitable_plots` (lines
245–259): skip non-success results, admit a result when
`not analysis.get('is_occupied', True)` and
`plot_details.get('area', 0) >= min_area` (a `TypeError` from the area
comparison propagates, as `find_suitable_plots` has no handler), setting
its `suitability_score`.  The `is_suitable` flag is computed in the
source but not used in the predicate. -/
def find_suitable_filter (min_area : ℚ) :
    List AnalysisResult → Except String (List AnalysisResult)
  | [] => .ok []
  | result :: rest =>
    if result.status != "success" then find_suitable_filter min_area rest
    else
      let analysis := result.analysis.getD []
      let plot_details := result.plot_details.getD []
      let is_vacant := !(truthy (pyGetD analysis "is_occupied" (.bool true)))
      match pyGE (pyGetD plot_details "area" (.num 0)) min_area with
      | .error e => .error e
      | .ok has_sufficient_area =>
        if is_vacant && has_sufficient_area then
          match calculate_suitability_score result with
          | .error e => .error e
          | .ok q =>
            match find_suitable_filter min_area rest with
            | .error e => .error e
            | .ok tail => .ok ({ result with suitability_score := some q } :: tail)
        else find_suitable_filter min_area rest

/-- The sort key `x.get('suitability_score', 0)`. -/
def suitKey (r : AnalysisResult) : Int := r.suitability_score.getD 0

/-- Insert into a descending-by-key list, after the elements whose key is
strictly greater and before those whose key is less than or equal:
earlier-inserted equal-key elements stay in front, giving stability. -/
def insertByDesc {α : Type} (key : α → Int) (x : α) : List α → List α
  | [] => [x]
  | y :: ys =>
    if key x < key y then y :: insertByDesc key x ys else x :: y :: ys

/-- Stable descending sort by a key, modelling Python's
`list.sort(key=..., reverse=True)` (a stable sort; stable sorting by a
key determines the output list uniquely, so insertion sort is an exact
model of Timsort here). -/
def sortByDesc {α : Type} (key : α → Int) : List α → List α
  | [] => []
  | x :: xs => insertByDesc key x (sortByDesc key xs)

/-- `UrbanPlotAnalysisPipeline.find_suitable_plots`, as a function of the
`analyze_area` output it filters and ranks: select candidates, then sort
by `suitability_score` descending. -/
def find_suitable_plots (min_area : ℚ) (all_results : List AnalysisResult) :
    Except String (List AnalysisResult) :=
  match find_suitable_filter min_area all_results with
  | .error e => .error e
  | .ok suitable_plots => .ok (sortByDesc suitKey suitable_plots)

/-! ## Concrete inputs and environments used in the theorems -/

/-- The area tier of the scoring ladder, as a function of a numeric
area. -/
def area_tier (a : ℚ) : Int :=
  if 5000 ≤ a then 30 else if 2000 ≤ a then 20 else if 1000 ≤ a then 10 else 0

/-- A success result whose judgement has the given `is_occupied`,
`confidence`, `buildings_detected` and `suitable_for_development` values
and whose details carry a numeric area: the input space of the scoring
table. -/
def mkScored (occ : Bool) (conf : JVal) (bd sd : Bool) (a : ℚ) : AnalysisResult :=
  { status := "success"
    analysis := some [("is_occupied", .bool occ), ("confidence", conf),
      ("buildings_detected", .bool bd), ("suitable_for_development", .bool sd)]
    plot_details := some [("area", .num a)] }

/-- Scenario B of the spec: vacant, high confidence, no buildings,
suitable for development, area 6000. -/
def scenarioB : AnalysisResult :=
  mkScored false (.str "высокий") false true 6000

/-- A success result whose judgement records `is_occupied: null` (the
vision client's classification-failure shape), area 2000. -/
def nullOccupied : AnalysisResult :=
  { status := "success"
    analysis := some [("is_occupied", JVal.null)]
    plot_details := some [("area", .num 2000)] }

/-- A success result with `is_occupied: null` and
`suitable_for_development: false`, area 5000. -/
def nullOccupiedLarge : AnalysisResult :=
  { status := "success"
    analysis := some [("is_occupied", JVal.null),
      ("suitable_for_development", JVal.bool false)]
    plot_details := some [("area", .num 5000)] }

/-- A model response that is a well-formed JSON object without a
`confidence` entry. -/
def badResponse : String := "\x7b\"is_occupied\": false\x7d"

/-- A model response with no JSON block at all (unrecognized output for
the parser). -/
def unrecognizedResponse : String :=
  "Не могу определить состояние участка по этому снимку"

/-- A registry record with a center point (no arithmetic needed to
extract its coordinates `(60, 30)`). -/
def pdW : PlotData :=
  { attrs := some [("cn", .str "78:0:0:4"), ("area_value", .num 3000)]
    center := some (.raw [30, 60]) }

/-- Environment whose registry finds nothing. -/
def envW3 : Env :=
  { get_plot_by_cadastral_number := fun _ => .ok none
    get_plot_by_coordinates := fun _ _ => .ok none
    get_satellite_image := fun _ _ => .ok none
    analyze_occupancy := fun _ _ => .ok []
    save_result := fun _ => .ok () }

/-- Environment where registry and imagery succeed but the vision call
raises (the client converts that into the degraded judgement). -/
def envW4 : Env :=
  { get_plot_by_cadastral_number := fun _ => .ok (some pdW)
    get_plot_by_coordinates := fun _ _ => .ok (some pdW)
    get_satellite_image := fun _ _ => .ok (some [0])
    analyze_occupancy := fun _ _ => .ok (analyze_plot_occupancy (.raises "API down"))
    save_result := fun _ => .ok () }

/-- Environment where the registry succeeds but the imagery client
returns `None`. -/
def envW5 : Env :=
  { get_plot_by_cadastral_number := fun _ => .ok (some pdW)
    get_plot_by_coordinates := fun _ _ => .ok (some pdW)
    get_satellite_image := fun _ _ => .ok none
    analyze_occupancy := fun _ _ => .ok []
    save_result := fun _ => .ok () }

/-- Environment whose registry lookup raises. -/
def envW9 : Env :=
  { get_plot_by_cadastral_number := fun _ => .error "registry exploded"
    get_plot_by_coordinates := fun _ _ => .error "registry exploded"
    get_satellite_image := fun _ _ => .ok none
    analyze_occupancy := fun _ _ => .ok []
    save_result := fun _ => .ok () }

/-- A benign environment (used where the registry must not matter). -/
def envW10 : Env :=
  { get_plot_by_cadastral_number := fun _ => .ok (some pdW)
    get_plot_by_coordinates := fun _ _ => .ok (some pdW)
    get_satellite_image := fun _ _ => .ok (some [0])
    analyze_occupancy := fun _ _ => .ok []
    save_result := fun _ => .ok () }

/-- First of two equal-score candidates (score 20: low confidence +
area tier 1000). -/
def rankA : AnalysisResult :=
  { status := "success"
    analysis := some [("is_occupied", .bool false)]
    plot_details := some [("area", .num 1500), ("address", .str "a")] }

/-- Second of two equal-score candidates, distinguishable from the
first. -/
def rankB : AnalysisResult :=
  { status := "success"
    analysis := some [("is_occupied", .bool false)]
    plot_details := some [("area", .num 1500), ("address", .str "b")] }

/-! ## Helper lemmas -/

/-- Reduce `analyze_single_plot` to `after_lookup` when the registry
lookup of the active mode returns normally. -/
theorem lookup_reduction (env : Env) (cn : Option String) (lat lon : Option ℚ)
    (pd : Option PlotData)
    (h : (truthyOS cn = true ∧
            env.get_plot_by_cadastral_number (cn.getD "") = Except.ok pd) ∨
         (truthyOS cn = false ∧ (truthyOQ lat && truthyOQ lon) = true ∧
            env.get_plot_by_coordinates (lat.getD 0) (lon.getD 0) = Except.ok pd)) :
    analyze_single_plot env cn lat lon = after_lookup env pd [Call.registry_by_cn] ∨
    analyze_single_plot env cn lat lon = after_lookup env pd [Call.registry_by_coords] := by
  rcases h with ⟨h1, h2⟩ | ⟨h1, h2, h3⟩
  · left
    simp [analyze_single_plot, h1, h2]
  · right
    simp [analyze_single_plot, h1, h2, h3]

/-- `after_lookup` on a found record with extractable coordinates is the
imagery/classification stage. -/
theorem after_lookup_some (env : Env) (pd : PlotData) (la lo : ℚ)
    (trace : List Call) (hco : get_plot_coordinates pd = some (la, lo)) :
    after_lookup env (some pd) trace =
      fetch_and_classify env (get_plot_details pd) la lo trace := by
  simp [after_lookup, hco]

/-! ## Claim theorems -/

/-- C10: with no cadastral number and a coordinate pair in which
`lat == 0` or `lon == 0`, the coordinate lookup branch is not taken —
the `lat and lon` presence check tests numeric truthiness, so the call
raises the invalid-argument `ValueError`, caught at the top level into a
`status='error'` result, with no registry call, regardless of the
environment. -/
theorem zero_coordinate_treated_as_missing (env : Env) (lat lon : ℚ)
    (h : lat = 0 ∨ lon = 0) :
    analyze_single_plot env none (some lat) (some lon) =
      (mkError "Either cadastral_number or (lat, lon) must be provided", []) := by
  rcases h with rfl | rfl <;>
    simp [analyze_single_plot, truthyOS, truthyOQ]

/-- Witness for C10: latitude 0 (on the equator) with a benign registry
that does hold a record. -/
theorem zero_coordinate_treated_as_missing_witness :
    analyze_single_plot envW10 none (some 0) (some 30) =
      (mkError "Either cadastral_number or (lat, lon) must be provided", []) :=
  zero_coordinate_treated_as_missing envW10 0 30 (Or.inl rfl)

/-- C2 (failing-input evaluation): a success result whose judgement has
`is_occupied = null` is classified as vacant by the area scanner's
partition and admitted as a suitability candidate by the ranker —
`analysis.get('is_occupied', True)` returns the present `None`, which is
falsy, so the conservative default does not apply. -/
theorem null_occupancy_classified_vacant :
    pyGet (nullOccupied.analysis.getD []) "is_occupied" = some JVal.null ∧
    vacant_filter [nullOccupied] = [nullOccupied] ∧
    find_suitable_plots 1000 [nullOccupied] =
      Except.ok [{ nullOccupied with suitability_score := some 30 }] := by
  decide

/-- C6 (failing-input evaluation): the ranker admits a success result
with `is_occupied = null` (not `== false`) and
`suitable_for_development = false`, so the filter predicate is Python
falsiness of `is_occupied`, not equality with `false` (and indeed the
development flag is not enforced). -/
theorem ranker_admits_null_occupancy :
    pyGet (nullOccupiedLarge.analysis.getD []) "is_occupied" = some JVal.null ∧
    ¬ pyGet (nullOccupiedLarge.analysis.getD []) "is_occupied" =
        some (JVal.bool false) ∧
    find_suitable_plots 2000 [nullOccupiedLarge] =
      Except.ok [{ nullOccupiedLarge with suitability_score := some 40 }] := by
  decide

/-- C8 (counterexample): a model response consisting of a JSON object
without a `confidence` entry is returned verbatim by `_parse_response`,
so the judgement has no confidence field at all — in particular not one
of the three enumerated levels; and an unrecognized response (no JSON
block) maps to confidence `'средний'` (medium), not to `'низкий'` (low)
as the claim states. -/
theorem parse_response_confidence_missing :
    pyGet (parse_response badResponse) "confidence" = none ∧
    parse_response badResponse = [("is_occupied", JVal.bool false)] ∧
    pyGet (parse_response unrecognizedResponse) "confidence" =
      some (JVal.str "средний") ∧
    ¬ pyGet (parse_response unrecognizedResponse) "confidence" =
      some (JVal.str "низкий") := by
  decide

/-- C3: when the registry lookup of the active mode returns no record,
the analysis returns `status='not_found'` immediately and performs no
imagery fetch and no classification call. -/
theorem not_found_short_circuits (env : Env) (cn : Option String)
    (lat lon : Option ℚ)
    (h : (truthyOS cn = true ∧
            env.get_plot_by_cadastral_number (cn.getD "") = Except.ok none) ∨
         (truthyOS cn = false ∧ (truthyOQ lat && truthyOQ lon) = true ∧
            env.get_plot_by_coordinates (lat.getD 0) (lon.getD 0) = Except.ok none)) :
    (analyze_single_plot env cn lat lon).1.status = "not_found" ∧
    Call.imagery ∉ (analyze_single_plot env cn lat lon).2 ∧
    Call.vision ∉ (analyze_single_plot env cn lat lon).2 := by
  rcases lookup_reduction env cn lat lon none h with heq | heq <;>
    rw [heq] <;> simp [after_lookup]

/-- Witness for C3: a cadastral-number lookup against an empty
registry. -/
theorem not_found_short_circuits_witness :
    (analyze_single_plot envW3 (some "78:0:0:3") none none).1.status = "not_found" ∧
    Call.imagery ∉ (analyze_single_plot envW3 (some "78:0:0:3") none none).2 ∧
    Call.vision ∉ (analyze_single_plot envW3 (some "78:0:0:3") none none).2 :=
  not_found_short_circuits envW3 (some "78:0:0:3") none none
    (Or.inl ⟨by decide, rfl⟩)

/-- C5: when registry lookup and coordinate extraction succeed but the
satellite-image fetch fails (the imagery client returns `None`), the
result has `status='error'`, its `plot_details` still carry the registry
details, and the `analysis` field is absent. -/
theorem imagery_failure_keeps_details (env : Env) (cn : Option String)
    (lat lon : Option ℚ) (pd : PlotData) (la lo : ℚ)
    (hmode : (truthyOS cn = true ∧
            env.get_plot_by_cadastral_number (cn.getD "") = Except.ok (some pd)) ∨
         (truthyOS cn = false ∧ (truthyOQ lat && truthyOQ lon) = true ∧
            env.get_plot_by_coordinates (lat.getD 0) (lon.getD 0) =
              Except.ok (some pd)))
    (hco : get_plot_coordinates pd = some (la, lo))
    (him : env.get_satellite_image la lo = Except.ok none) :
    (analyze_single_plot env cn lat lon).1.status = "error" ∧
    (analyze_single_plot env cn lat lon).1.plot_details =
      some (get_plot_details pd) ∧
    (analyze_single_plot env cn lat lon).1.analysis = none := by
  rcases lookup_reduction env cn lat lon (some pd) hmode with heq | heq <;>
    rw [heq, after_lookup_some env pd la lo _ hco] <;>
    simp [fetch_and_classify, him, bytesTruthy]

/-- Witness for C5: coordinate-mode lookup finds `pdW`, imagery returns
`None`. -/
theorem imagery_failure_keeps_details_witness :
    (analyze_single_plot envW5 none (some 60) (some 30)).1.status = "error" ∧
    (analyze_single_plot envW5 none (some 60) (some 30)).1.plot_details =
      some (get_plot_details pdW) ∧
    (analyze_single_plot envW5 none (some 60) (some 30)).1.analysis = none :=
  imagery_failure_keeps_details envW5 none (some 60) (some 30) pdW 60 30
    (Or.inr ⟨rfl, by decide, rfl⟩) (by decide) rfl

/-- C4: when registry, coordinate extraction and imagery all succeed and
the vision classification raises, the client's handler converts the
exception into a judgement with `is_occupied = null`,
`confidence = 'низкий'` (low) and an `error` marker, and the parcel
still yields a `status='success'` result carrying that judgement. -/
theorem classification_failure_degrades (env : Env) (cn : Option String)
    (lat lon : Option ℚ) (pd : PlotData) (la lo : ℚ) (img : Bytes) (msg : String)
    (hmode : (truthyOS cn = true ∧
            env.get_plot_by_cadastral_number (cn.getD "") = Except.ok (some pd)) ∨
         (truthyOS cn = false ∧ (truthyOQ lat && truthyOQ lon) = true ∧
            env.get_plot_by_coordinates (lat.getD 0) (lon.getD 0) =
              Except.ok (some pd)))
    (hco : get_plot_coordinates pd = some (la, lo))
    (him : env.get_satellite_image la lo = Except.ok (some img))
    (hne : img ≠ [])
    (hv : env.analyze_occupancy img (get_plot_details pd) =
          Except.ok (analyze_plot_occupancy (VisionOutcome.raises msg)))
    (hs : ∀ r, env.save_result r = Except.ok ()) :
    (analyze_single_plot env cn lat lon).1.status = "success" ∧
    (analyze_single_plot env cn lat lon).1.analysis =
      some [("error", JVal.str msg), ("is_occupied", JVal.null),
            ("confidence", JVal.str "низкий")] ∧
    pyGet (((analyze_single_plot env cn lat lon).1.analysis).getD [])
        "is_occupied" = some JVal.null ∧
    pyGet (((analyze_single_plot env cn lat lon).1.analysis).getD [])
        "confidence" = some (JVal.str "низкий") ∧
    (pyGet (((analyze_single_plot env cn lat lon).1.analysis).getD [])
        "error").isSome = true := by
  rcases lookup_reduction env cn lat lon (some pd) hmode with heq | heq <;>
    rw [heq, after_lookup_some env pd la lo _ hco] <;>
    simp [fetch_and_classify, him, bytesTruthy, hne, hv, hs,
      analyze_plot_occupancy, pyGet]

/-- Witness for C4: cadastral-number mode against `envW4`, whose vision
call raises. -/
theorem classification_failure_degrades_witness :
    (analyze_single_plot envW4 (some "78:0:0:4") none none).1.status = "success" ∧
    (analyze_single_plot envW4 (some "78:0:0:4") none none).1.analysis =
      some [("error", JVal.str "API down"), ("is_occupied", JVal.null),
            ("confidence", JVal.str "низкий")] ∧
    pyGet (((analyze_single_plot envW4 (some "78:0:0:4") none none).1.analysis).getD [])
        "is_occupied" = some JVal.null ∧
    pyGet (((analyze_single_plot envW4 (some "78:0:0:4") none none).1.analysis).getD [])
        "confidence" = some (JVal.str "низкий") ∧
    (pyGet (((analyze_single_plot envW4 (some "78:0:0:4") none none).1.analysis).getD [])
        "error").isSome = true :=
  classification_failure_degrades envW4 (some "78:0:0:4") none none pdW 60 30
    [0] "API down" (Or.inl ⟨by decide, rfl⟩) (by decide) rfl (by decide) rfl
    (fun _ => rfl)

/-- The imagery/classification stage only produces success or error
statuses. -/
theorem fetch_and_classify_status (env : Env) (pdts : Dict) (la lo : ℚ)
    (tr : List Call) :
    (fetch_and_classify env pdts la lo tr).1.status = "success" ∨
    (fetch_and_classify env pdts la lo tr).1.status = "error" := by
  unfold fetch_and_classify
  split
  · right; rfl
  · split
    · split
      · right; rfl
      · dsimp only
        split
        · right; rfl
        · left; rfl
    · right; rfl

/-- `after_lookup` only produces the three statuses. -/
theorem after_lookup_status (env : Env) (pd : Option PlotData) (tr : List Call) :
    (after_lookup env pd tr).1.status = "success" ∨
    (after_lookup env pd tr).1.status = "not_found" ∨
    (after_lookup env pd tr).1.status = "error" := by
  unfold after_lookup
  split
  · right; left; rfl
  · split
    · right; right; rfl
    · exact (fetch_and_classify_status _ _ _ _ _).imp id Or.inr

/-- C9: the analyzer never propagates an exception — for every
environment behaviour it returns a result whose status is one of the
three, a raising registry lookup is converted at the top level to
`status='error'` carrying the exception message, and calling with
neither a cadastral number nor a truthy coordinate pair fails with the
invalid-argument `ValueError` (as an error result) without any lookup. -/
theorem analyze_single_plot_isolates_faults (env : Env) (cn : Option String)
    (lat lon : Option ℚ) :
    ((analyze_single_plot env cn lat lon).1.status = "success" ∨
     (analyze_single_plot env cn lat lon).1.status = "not_found" ∨
     (analyze_single_plot env cn lat lon).1.status = "error") ∧
    (∀ e, truthyOS cn = true →
        env.get_plot_by_cadastral_number (cn.getD "") = Except.error e →
        analyze_single_plot env cn lat lon = (mkError e, [Call.registry_by_cn])) ∧
    (truthyOS cn = false → (truthyOQ lat && truthyOQ lon) = false →
        analyze_single_plot env cn lat lon =
          (mkError "Either cadastral_number or (lat, lon) must be provided", [])) := by
  refine ⟨?_, ?_, ?_⟩
  · unfold analyze_single_plot
    split
    · split
      · right; right; rfl
      · exact after_lookup_status _ _ _
    · split
      · split
        · right; right; rfl
        · exact after_lookup_status _ _ _
      · right; right; rfl
  · intro e h1 h2
    simp [analyze_single_plot, h1, h2]
  · intro h1 h2
    simp [analyze_single_plot, h1, h2]

/-- Witness for C9: a registry that raises; the exception message is
carried into the error result. -/
theorem analyze_single_plot_isolates_faults_witness :
    analyze_single_plot envW9 (some "78:0:0:9") none none =
      (mkError "registry exploded", [Call.registry_by_cn]) :=
  (analyze_single_plot_isolates_faults envW9 (some "78:0:0:9") none none).2.1
    "registry exploded" (by decide) rfl

/-- The source's integer `min` agrees with the mathematical one. -/
theorem pymin_eq_min (x y : Int) : pymin x y = min x y := by
  unfold pymin
  rcases lt_or_le y x with h | h
  · rw [if_pos h, min_eq_right h.le]
  · rw [if_neg (not_lt.mpr h), min_eq_left h]

/-- The confidence contribution is between 10 and 30. -/
theorem confidence_map_get_bounds (v : JVal) :
    10 ≤ confidence_map_get v ∧ confidence_map_get v ≤ 30 := by
  unfold confidence_map_get
  split_ifs <;> omega

/-- On numeric areas the ladder computes the area tier. -/
theorem area_points_num (a : ℚ) : area_points (.num a) = .ok (area_tier a) := by
  by_cases h1 : (5000 : ℚ) ≤ a <;> by_cases h2 : (2000 : ℚ) ≤ a <;>
    by_cases h3 : (1000 : ℚ) ≤ a <;>
    simp [area_points, pyGE, area_tier, h1, h2, h3]

/-- The area contribution, when it does not raise, is between 0 and
30. -/
theorem area_points_bounds (v : JVal) (ap : Int) (h : area_points v = .ok ap) :
    0 ≤ ap ∧ ap ≤ 30 := by
  unfold area_points at h
  repeat' split at h
  all_goals simp_all
  all_goals omega

/-- The suitability score, whenever it is computed at all, lies in
[0, 100]. -/
theorem score_range (r : AnalysisResult) (q : Int)
    (h : calculate_suitability_score r = Except.ok q) : 0 ≤ q ∧ q ≤ 100 := by
  unfold calculate_suitability_score at h
  dsimp only at h
  split at h
  · simp at h
  · rename_i ap hap
    simp only [Except.ok.injEq] at h
    subst h
    have hc := confidence_map_get_bounds
      (pyGetD (r.analysis.getD []) "confidence" (.str "низкий"))
    have ha := area_points_bounds _ ap hap
    unfold pymin
    split_ifs <;> omega

/-- On the scoring table's input space the score is exactly the capped
sum of the four contributions. -/
theorem score_decomposition (occ bd sd : Bool) (conf : JVal) (a : ℚ) :
    calculate_suitability_score (mkScored occ conf bd sd a) =
      Except.ok (pymin (confidence_map_get conf + area_tier a +
        (if bd then 0 else 20) + (if sd then 20 else 0)) 100) := by
  simp [calculate_suitability_score, mkScored, pyGetD, pyGet, area_points_num,
    truthy]

/-- C1: the suitability score is the deterministic pure function
`min(confidence points + area points + building bonus + development
bonus, 100)` with the claimed point values, always lies in [0, 100]
when computed, and scores Scenario B at exactly 100. -/
theorem suitability_score_spec :
    (∀ x y : Int, pymin x y = min x y) ∧
    (∀ r q, calculate_suitability_score r = Except.ok q → 0 ≤ q ∧ q ≤ 100) ∧
    (∀ (occ bd sd : Bool) (conf : JVal) (a : ℚ),
      calculate_suitability_score (mkScored occ conf bd sd a) =
        Except.ok (pymin (confidence_map_get conf + area_tier a +
          (if bd then 0 else 20) + (if sd then 20 else 0)) 100)) ∧
    confidence_map_get (JVal.str "высокий") = 30 ∧
    confidence_map_get (JVal.str "средний") = 20 ∧
    confidence_map_get (JVal.str "низкий") = 10 ∧
    (∀ a : ℚ, 5000 ≤ a → area_tier a = 30) ∧
    calculate_suitability_score scenarioB = Except.ok 100 :=
  ⟨pymin_eq_min, score_range, score_decomposition, rfl, rfl, rfl,
   fun _ h => by simp [area_tier, h], by decide⟩

/-- Witness for C1: the range clause applied to Scenario B, whose score
evaluates to 100. -/
theorem suitability_score_spec_witness : (0 : Int) ≤ 100 ∧ (100 : Int) ≤ 100 :=
  suitability_score_spec.2.1 scenarioB 100 (by decide)

/-- Membership in an insertion. -/
theorem mem_insertByDesc {α : Type} (key : α → Int) (x y : α) (l : List α) :
    y ∈ insertByDesc key x l ↔ y = x ∨ y ∈ l := by
  induction l with
  | nil => simp [insertByDesc]
  | cons z zs ih =>
    simp only [insertByDesc]
    split
    · simp only [List.mem_cons, ih]
      tauto
    · simp only [List.mem_cons]

/-- Insertion preserves descending sortedness. -/
theorem sorted_insertByDesc {α : Type} (key : α → Int) (x : α) (l : List α)
    (h : List.Sorted (fun a b => key b ≤ key a) l) :
    List.Sorted (fun a b => key b ≤ key a) (insertByDesc key x l) := by
  induction l with
  | nil => simp [insertByDesc]
  | cons y ys ih =>
    rw [List.sorted_cons] at h
    simp only [insertByDesc]
    split
    · rename_i hlt
      rw [List.sorted_cons]
      refine ⟨fun b hb => ?_, ih h.2⟩
      rcases (mem_insertByDesc key x b ys).1 hb with rfl | hbmem
      · exact hlt.le
      · exact h.1 b hbmem
    · rename_i hnlt
      push_neg at hnlt
      rw [List.sorted_cons]
      refine ⟨fun b hb => ?_, List.sorted_cons.mpr h⟩
      rcases List.mem_cons.1 hb with rfl | hbmem
      · exact hnlt
      · exact le_trans (h.1 b hbmem) hnlt

/-- Insertion is a permutation of consing. -/
theorem perm_insertByDesc {α : Type} (key : α → Int) (x : α) (l : List α) :
    List.Perm (insertByDesc key x l) (x :: l) := by
  induction l with
  | nil => simp [insertByDesc]
  | cons y ys ih =>
    simp only [insertByDesc]
    split
    · exact (List.Perm.cons y ih).trans (List.Perm.swap x y ys)
    · exact List.Perm.refl _

/-- Inserting an element whose key is `c` puts it in front of the
equal-key elements already present; inserting any other element leaves
the `c`-keyed subsequence unchanged. -/
theorem filter_insertByDesc {α : Type} (key : α → Int) (x : α) (l : List α)
    (c : Int) :
    (insertByDesc key x l).filter (fun r => decide (key r = c)) =
      if key x = c then x :: l.filter (fun r => decide (key r = c))
      else l.filter (fun r => decide (key r = c)) := by
  induction l with
  | nil =>
    by_cases hx : key x = c <;> simp [insertByDesc, List.filter, hx]
  | cons y ys ih =>
    simp only [insertByDesc]
    split
    · rename_i hlt
      by_cases hx : key x = c
      · have hy : ¬ key y = c := by omega
        simp [List.filter, hx, hy, ih]
      · by_cases hy : key y = c <;> simp [List.filter, hx, hy, ih]
    · by_cases hx : key x = c <;> by_cases hy : key y = c <;>
        simp [List.filter, hx, hy]

/-- The ranking sort is descending. -/
theorem sorted_sortByDesc {α : Type} (key : α → Int) (l : List α) :
    List.Sorted (fun a b => key b ≤ key a) (sortByDesc key l) := by
  induction l with
  | nil => simp [sortByDesc]
  | cons x xs ih => exact sorted_insertByDesc key x _ ih

/-- The ranking sort permutes its input. -/
theorem perm_sortByDesc {α : Type} (key : α → Int) (l : List α) :
    List.Perm (sortByDesc key l) l := by
  induction l with
  | nil => simp [sortByDesc]
  | cons x xs ih =>
    exact (perm_insertByDesc key x _).trans (List.Perm.cons x ih)

/-- Stability: for every key value, the sort preserves the relative
order of the elements carrying that key. -/
theorem filter_sortByDesc {α : Type} (key : α → Int) (l : List α) (c : Int) :
    (sortByDesc key l).filter (fun r => decide (key r = c)) =
      l.filter (fun r => decide (key r = c)) := by
  induction l with
  | nil => rfl
  | cons x xs ih =>
    rw [sortByDesc, filter_insertByDesc]
    by_cases hx : key x = c <;> simp [List.filter, hx, ih]

/-- C7: the ranker's output is its candidate list sorted by suitability
score in descending order with a stable sort — it is a permutation of
the candidates, descending in the score key, and for every score value
the candidates carrying that score appear in their original relative
order. -/
theorem ranking_sorted_and_stable (min_area : ℚ) (results out : List AnalysisResult)
    (h : find_suitable_plots min_area results = Except.ok out) :
    List.Sorted (fun a b => suitKey b ≤ suitKey a) out ∧
    ∃ cands, find_suitable_filter min_area results = Except.ok cands ∧
      List.Perm out cands ∧
      ∀ c : Int, out.filter (fun r => decide (suitKey r = c)) =
        cands.filter (fun r => decide (suitKey r = c)) := by
  unfold find_suitable_plots at h
  split at h
  · simp at h
  · rename_i cands hcands
    simp only [Except.ok.injEq] at h
    subst h
    exact ⟨sorted_sortByDesc suitKey cands,
      cands, hcands, perm_sortByDesc suitKey cands,
      fun c => filter_sortByDesc suitKey cands c⟩

/-- Witness for C7: two distinct candidates with equal score 20 keep
their input order in the ranked output. -/
theorem ranking_sorted_and_stable_witness :
    List.Sorted (fun a b => suitKey b ≤ suitKey a)
      [{ rankA with suitability_score := some 20 },
       { rankB with suitability_score := some 20 }] ∧
    ∃ cands, find_suitable_filter 1000 [rankA, rankB] = Except.ok cands ∧
      List.Perm [{ rankA with suitability_score := some 20 },
        { rankB with suitability_score := some 20 }] cands ∧
      ∀ c : Int,
        List.filter (fun r => decide (suitKey r = c))
          [{ rankA with suitability_score := some 20 },
           { rankB with suitability_score := some 20 }] =
        cands.filter (fun r => decide (suitKey r = c)) :=
  ranking_sorted_and_stable 1000 [rankA, rankB]
    [{ rankA with suitability_score := some 20 },
     { rankB with suitability_score := some 20 }] (by decide)

/-- C8 (amended): the parser's confidence is determined by which path
`_parse_response` takes: a response text with no JSON block maps to the
keyword fallback whose confidence is `'средний'` (medium — not low); a
response whose extracted block fails to parse maps to the
caught-exception dict with confidence `'низкий'` (low), as does a
raising classification call; and a response whose block parses is
returned verbatim, with no constraint on its confidence entry. -/
theorem parse_response_confidence_cases :
    (∀ text : String, findJsonBlock text = none →
        pyGet (parse_response text) "confidence" = some (JVal.str "средний")) ∧
    (∀ text block, findJsonBlock text = some block → jsonLoads block = none →
        parse_response text =
          [("raw_response", JVal.str text), ("is_occupied", JVal.null),
           ("confidence", JVal.str "низкий")]) ∧
    (∀ text block parsed, findJsonBlock text = some block →
        jsonLoads block = some parsed → parse_response text = parsed) ∧
    (∀ msg, pyGet (analyze_plot_occupancy (VisionOutcome.raises msg)) "confidence" =
        some (JVal.str "низкий")) := by
  refine ⟨?_, ?_, ?_, ?_⟩
  · intro text h
    unfold parse_response
    rw [h]
    simp [textFallback, pyGet, List.find?]
  · intro text block h1 h2
    unfold parse_response
    rw [h1]
    simp [h2]
  · intro text block parsed h1 h2
    unfold parse_response
    rw [h1]
    simp [h2]
  · intro msg
    simp [analyze_plot_occupancy, pyGet, List.find?]

/-- Witness for C8: each case of the amended theorem at a concrete
response — JSON-free text (fallback, medium), a brace block that is not
JSON (parse failure, low), a parsing block returned verbatim with a
non-level confidence, and a raising classification call (low). -/
theorem parse_response_confidence_cases_witness :
    pyGet (parse_response "ответ без структуры") "confidence" =
      some (JVal.str "средний") ∧
    parse_response "\x7bне json\x7d" =
      [("raw_response", JVal.str "\x7bне json\x7d"), ("is_occupied", JVal.null),
       ("confidence", JVal.str "низкий")] ∧
    parse_response "\x7b\"confidence\": \"сверхвысокий\"\x7d" =
      [("confidence", JVal.str "сверхвысокий")] ∧
    pyGet (analyze_plot_occupancy (VisionOutcome.raises "boom")) "confidence" =
      some (JVal.str "низкий") :=
  ⟨parse_response_confidence_cases.1 "ответ без структуры" (by decide),
   parse_response_confidence_cases.2.1 "\x7bне json\x7d" "\x7bне json\x7d"
     (by decide) (by decide),
   parse_response_confidence_cases.2.2.1 "\x7b\"confidence\": \"сверхвысокий\"\x7d"
     "\x7b\"confidence\": \"сверхвысокий\"\x7d"
     [("confidence", JVal.str "сверхвысокий")] (by decide) (by decide),
   parse_response_confidence_cases.2.2.2 "boom"⟩
